import Mathlib

/-!
Shallow embedding of `src/apx/cli/dev/reloader.py` (the `AppReloader` class)
and proofs about its load/reload/clear protocol.

Modelling conventions:
* `AppReloader` mirrors the three instance fields `_app_instance`,
  `_app_module_name`, `_reload_count` of the Python class.
* The dynamic import machinery (`importlib.import_module`, `getattr`,
  `isinstance(_, FastAPI)`) is an injected environment `Env`: a raised
  exception is `none`, a successful call is `some`.
* `sys.modules` is modelled as the list of currently imported module names;
  `load_app` threads it explicitly.
* Side effects that the claims talk about (the SQLModel registry sweep, the
  module-cache invalidation, each resolver invocation) are recorded in an
  event trace that `load_app` returns alongside its result.
* Exceptions are an explicit `Except` result: `LoadError.valueError` is the
  `ValueError` raised for a separator-free target, `importError`,
  `attributeError` and `typeError` are the import / `getattr` /
  `isinstance` failures of the reload path.
-/

set_option maxHeartbeats 1000000

namespace Apx

/-- Errors raised by `AppReloader.load_app` (the `raise` sites of the source). -/
inductive LoadError where
  | valueError (offending : String)
  | importError (modulePath : String)
  | attributeError (modulePath : String) (attributeName : String)
  | typeError (attributeName : String)
deriving DecidableEq

/-- Observable side effects of one `load_app` call, in execution order:
the SQLModel registry sweep, the `sys.modules` namespace invalidation, and
each invocation of the module resolver (`importlib.import_module`). -/
inductive Event where
  | sweep
  | invalidate (basePath : String)
  | resolve (modulePath : String)
deriving DecidableEq

/-- `true` exactly on resolver-invocation events, used to count resolver calls. -/
def Event.isResolve : Event → Bool
  | .resolve _ => true
  | _ => false

/-- The injected dynamic-symbol environment: `import_module` models
`importlib.import_module` (raising = `none`), `getattr` models Python
attribute lookup on the resolved module, `is_fastapi` models
`isinstance(x, FastAPI)`. `M` is the type of module objects, `A` the type
of candidate application handles. -/
structure Env (M A : Type) where
  import_module : String → Option M
  getattr : M → String → Option A
  is_fastapi : A → Bool

/-- State of one `AppReloader` instance: the three fields set in `__init__`. -/
structure AppReloader (A : Type) where
  app_instance : Option A
  app_module_name : Option String
  reload_count : Nat
deriving DecidableEq

/-- `AppReloader.__init__`: no cached app, no cached name, count 0. -/
def AppReloader.init (A : Type) : AppReloader A := ⟨none, none, 0⟩

/-- `AppReloader.get_app`: return the cached instance without loading. -/
def AppReloader.get_app (st : AppReloader A) : Option A := st.app_instance

/-- `AppReloader.get_reload_count`. -/
def AppReloader.get_reload_count (st : AppReloader A) : Nat := st.reload_count

/-- `AppReloader.clear`: drop the cached instance and name, keep the count. -/
def AppReloader.clear (st : AppReloader A) : AppReloader A :=
  { st with app_instance := none, app_module_name := none }

/-- Python `c in s` for a one-character needle: does the character occur in
the string? (Structural recursion over the character list, so that concrete
instances evaluate definitionally.) -/
def containsChar (s : String) (c : Char) : Bool := s.data.contains c

/-- Split a character list at the first occurrence of `sep`:
`some (before, after)` when `sep` occurs, `none` otherwise. -/
def splitAtFirst (sep : Char) : List Char → Option (List Char × List Char)
  | [] => none
  | c :: cs =>
    if c = sep then some ([], cs)
    else
      match splitAtFirst sep cs with
      | none => none
      | some (l, r) => some (c :: l, r)

/-- Python `s.split(sep, 1)` for a one-character separator: the part before
the first occurrence of `sep` and the remainder; `(s, "")` when `sep` does
not occur (the source only unpacks the result after checking occurrence). -/
def split_first (s : String) (sep : Char) : String × String :=
  match splitAtFirst sep s.data with
  | none => (s, "")
  | some (l, r) => (⟨l⟩, ⟨r⟩)

/-- Python `module_path.split(".")[0]`: the top-level namespace segment —
the part before the first `'.'`, or the whole string when there is none. -/
def basePathOf (module_path : String) : String :=
  match splitAtFirst '.' module_path.data with
  | none => module_path
  | some (l, _) => ⟨l⟩

/-- The `sys.modules` eviction test of the reload path:
`name.startswith(base_path + ".") or name == base_path`
(compared on the underlying character lists). -/
def matchesBase (base_path name : String) : Bool :=
  (base_path ++ ".").data.isPrefixOf name.data || name.data == base_path.data

/-- Result quadruple of one `load_app` call: the returned value or raised
error, the reloader state afterwards, `sys.modules` afterwards, and the
trace of observable side effects. -/
abbrev LoadResult (A : Type) :=
  Except LoadError (A × Nat) × AppReloader A × List String × List Event

deriving instance DecidableEq for Except

/-- The tail of `AppReloader.load_app` from the `importlib.import_module`
call on: import the module, fetch the attribute, check the `FastAPI`
instance test, and on success cache the new instance and name. -/
def finish_load (env : Env M A) (st1 : AppReloader A) (sys1 : List String)
    (tr1 : List Event) (module_path attribute_name app_module_name : String) :
    LoadResult A :=
  match env.import_module module_path with
  | none =>
      (.error (.importError module_path), st1, sys1, tr1 ++ [Event.resolve module_path])
  | some m =>
    match env.getattr m attribute_name with
    | none =>
        (.error (.attributeError module_path attribute_name), st1, sys1,
          tr1 ++ [Event.resolve module_path])
    | some inst =>
      if env.is_fastapi inst then
        (.ok (inst, st1.reload_count),
          { st1 with app_instance := some inst,
                     app_module_name := some app_module_name },
          sys1, tr1 ++ [Event.resolve module_path])
      else
        (.error (.typeError attribute_name), st1, sys1,
          tr1 ++ [Event.resolve module_path])

/-- `AppReloader.load_app`, translated line by line:
1. fast path: not reloading, an instance is cached, and the cached name
   equals the requested one — return the cached instance and count;
2. parse check: a target without `':'` raises `ValueError`;
3. reload block, run when `reload or self._app_instance is not None`:
   sweep the SQLModel registries, delete from `sys.modules` every name that
   equals the target's top-level segment or is nested under it, and
   increment `_reload_count`;
4. import the module, fetch the attribute, check the type, cache. -/
def AppReloader.load_app (env : Env M A) (st : AppReloader A) (sys : List String)
    (app_module_name : String) (reload : Bool) : LoadResult A :=
  if h : reload = false ∧ st.app_instance.isSome ∧
      st.app_module_name = some app_module_name then
    (.ok (st.app_instance.get h.2.1, st.reload_count), st, sys, [])
  else if containsChar app_module_name ':' = false then
    (.error (.valueError app_module_name), st, sys, [])
  else
    let module_path := (split_first app_module_name ':').1
    let attribute_name := (split_first app_module_name ':').2
    if reload = true ∨ st.app_instance.isSome then
      let base_path := basePathOf module_path
      finish_load env
        { st with reload_count := st.reload_count + 1 }
        (sys.filter fun name => !(matchesBase base_path name))
        [Event.sweep, Event.invalidate base_path]
        module_path attribute_name app_module_name
    else
      finish_load env st sys [] module_path attribute_name app_module_name

/-- Concrete resolver used by witnesses and counterexamples: module objects
are their names; only `"pkg.app"` imports; its attribute `"service"` is the
handle `42`; every value passes the `FastAPI` instance test. -/
def envA : Env String Nat :=
  { import_module := fun mp => if mp = "pkg.app" then some "pkg.app" else none
    getattr := fun m a => if m = "pkg.app" ∧ a = "service" then some 42 else none
    is_fastapi := fun _ => true }

/-- Concrete resolver whose import always raises. -/
def envFail : Env String Nat :=
  { import_module := fun _ => none
    getattr := fun _ _ => none
    is_fastapi := fun _ => false }

/-- Concrete resolver for the two-separator target `"a:b:c"`: module `"a"`
imports and carries an attribute literally named `"b:c"`. -/
def envB : Env String Nat :=
  { import_module := fun mp => if mp = "a" then some "a" else none
    getattr := fun m a => if m = "a" ∧ a = "b:c" then some 5 else none
    is_fastapi := fun _ => true }

/-! ## Structural lemmas about `finish_load` and `load_app` -/

/-- `finish_load` never touches the reload count, the module table, or the
already-recorded trace: it only appends the one resolver invocation. -/
theorem finish_load_frame (env : Env M A) (st1 : AppReloader A) (sys1 : List String)
    (tr1 : List Event) (mp an amn : String) :
    (finish_load env st1 sys1 tr1 mp an amn).2.1.reload_count = st1.reload_count ∧
    (finish_load env st1 sys1 tr1 mp an amn).2.2.1 = sys1 ∧
    (finish_load env st1 sys1 tr1 mp an amn).2.2.2 = tr1 ++ [Event.resolve mp] := by
  cases h1 : env.import_module mp with
  | none => simp [finish_load, h1]
  | some m =>
    cases h2 : env.getattr m an with
    | none => simp [finish_load, h1, h2]
    | some v =>
      by_cases h3 : env.is_fastapi v = true
      · simp [finish_load, h1, h2, h3]
      · simp [finish_load, h1, h2, h3]

/-- If `finish_load` returns `ok (v, g)`, the new state caches `v` under the
requested name and reports the (unchanged) reload count. -/
theorem finish_load_ok (env : Env M A) (st1 : AppReloader A) (sys1 : List String)
    (tr1 : List Event) (mp an amn : String) (v : A) (g : Nat)
    (st2 : AppReloader A) (sys2 : List String) (tr2 : List Event)
    (h : finish_load env st1 sys1 tr1 mp an amn = (.ok (v, g), st2, sys2, tr2)) :
    st2.app_instance = some v ∧ st2.app_module_name = some amn ∧
    st2.reload_count = g ∧ g = st1.reload_count := by
  unfold finish_load at h
  split at h
  · simp at h
  · split at h
    · simp at h
    · split at h
      · simp only [Prod.mk.injEq, Except.ok.injEq] at h
        obtain ⟨⟨hv, hg⟩, hst, hsys, htr⟩ := h
        subst hv
        rw [← hst, ← hg]
        simp
      · simp at h

/-- If `finish_load` raises, the reloader state is returned untouched. -/
theorem finish_load_error (env : Env M A) (st1 : AppReloader A) (sys1 : List String)
    (tr1 : List Event) (mp an amn : String) (e : LoadError)
    (st2 : AppReloader A) (sys2 : List String) (tr2 : List Event)
    (h : finish_load env st1 sys1 tr1 mp an amn = (.error e, st2, sys2, tr2)) :
    st2 = st1 ∧ sys2 = sys1 ∧ tr2 = tr1 ++ [Event.resolve mp] := by
  unfold finish_load at h
  split at h
  · simp only [Prod.mk.injEq, Except.error.injEq] at h
    exact ⟨h.2.1.symm, h.2.2.1.symm, h.2.2.2.symm⟩
  · split at h
    · simp only [Prod.mk.injEq, Except.error.injEq] at h
      exact ⟨h.2.1.symm, h.2.2.1.symm, h.2.2.2.symm⟩
    · split at h
      · simp at h
      · simp only [Prod.mk.injEq, Except.error.injEq] at h
        exact ⟨h.2.1.symm, h.2.2.1.symm, h.2.2.2.symm⟩

/-- The fast path: not reloading, with `t` cached, `load_app` returns the
cached handle and current count and does nothing else. -/
theorem load_app_fast (env : Env M A) (st : AppReloader A) (sys : List String)
    (t : String) (v : A) (h1 : st.app_instance = some v)
    (h2 : st.app_module_name = some t) :
    AppReloader.load_app env st sys t false
      = (.ok (v, st.reload_count), st, sys, []) := by
  have hc : false = false ∧ st.app_instance.isSome ∧ st.app_module_name = some t :=
    ⟨rfl, by simp [h1], h2⟩
  unfold AppReloader.load_app
  rw [dif_pos hc]
  have h3 : some (st.app_instance.get hc.2.1) = some v := by
    rw [Option.some_get, h1]
  simp only [Option.some.injEq] at h3
  rw [h3]

/-- Whenever `load_app` returns `ok (v, g)`, the resulting state caches `v`
under the requested name, and `g` is its reload count. -/
theorem load_app_ok (env : Env M A) (st : AppReloader A) (sys : List String)
    (t : String) (r : Bool) (v : A) (g : Nat) (st1 : AppReloader A)
    (sys1 : List String) (tr1 : List Event)
    (h : AppReloader.load_app env st sys t r = (.ok (v, g), st1, sys1, tr1)) :
    st1.app_instance = some v ∧ st1.app_module_name = some t ∧
    st1.reload_count = g := by
  rw [AppReloader.load_app] at h
  split at h
  case isTrue hcond =>
    simp only [Prod.mk.injEq, Except.ok.injEq] at h
    obtain ⟨⟨hv, hg⟩, hst, hsys, htr⟩ := h
    rw [← hst, ← hg]
    refine ⟨?_, hcond.2.2, rfl⟩
    rw [← hv, Option.some_get]
  case isFalse =>
    split at h
    · simp at h
    · split at h
      · have hk := finish_load_ok _ _ _ _ _ _ _ _ _ _ _ _ h
        exact ⟨hk.1, hk.2.1, hk.2.2.1⟩
      · have hk := finish_load_ok _ _ _ _ _ _ _ _ _ _ _ _ h
        exact ⟨hk.1, hk.2.1, hk.2.2.1⟩

/-- Off the fast path, with a well-formed target, `load_app` is the reload
block (when forced or an instance is cached) followed by the import tail —
otherwise the import tail alone. -/
theorem load_app_slow_eq (env : Env M A) (st : AppReloader A) (sys : List String)
    (t : String) (r : Bool)
    (hfast : ¬(r = false ∧ st.app_instance.isSome ∧ st.app_module_name = some t))
    (hc : containsChar t ':' = true) :
    AppReloader.load_app env st sys t r
      = if r = true ∨ st.app_instance.isSome then
          finish_load env { st with reload_count := st.reload_count + 1 }
            (sys.filter fun name =>
              !(matchesBase (basePathOf (split_first t ':').1) name))
            [Event.sweep, Event.invalidate (basePathOf (split_first t ':').1)]
            (split_first t ':').1 (split_first t ':').2 t
        else
          finish_load env st sys [] (split_first t ':').1 (split_first t ':').2 t := by
  rw [AppReloader.load_app, dif_neg hfast, if_neg (by simp [hc])]

/-- Off the fast path, a separator-free target raises `ValueError` and
nothing at all happens: state, module table and trace are untouched. -/
theorem load_app_parse_error (env : Env M A) (st : AppReloader A)
    (sys : List String) (t : String) (r : Bool)
    (hfast : ¬(r = false ∧ st.app_instance.isSome ∧ st.app_module_name = some t))
    (hc : containsChar t ':' = false) :
    AppReloader.load_app env st sys t r = (.error (.valueError t), st, sys, []) := by
  rw [AppReloader.load_app, dif_neg hfast, if_pos hc]

/-- Whenever `load_app` raises, the cached instance and cached name are
left exactly as they were (only the count may have moved). -/
theorem load_app_error (env : Env M A) (st : AppReloader A) (sys : List String)
    (t : String) (r : Bool) (e : LoadError) (st1 : AppReloader A)
    (sys1 : List String) (tr1 : List Event)
    (h : AppReloader.load_app env st sys t r = (.error e, st1, sys1, tr1)) :
    st1.app_instance = st.app_instance ∧
    st1.app_module_name = st.app_module_name := by
  rw [AppReloader.load_app] at h
  split at h
  · simp at h
  · split at h
    · simp only [Prod.mk.injEq, Except.error.injEq] at h
      rw [← h.2.1]
      exact ⟨rfl, rfl⟩
    · split at h
      · obtain ⟨hst, -, -⟩ := finish_load_error _ _ _ _ _ _ _ _ _ _ _ h
        rw [hst]
        exact ⟨rfl, rfl⟩
      · obtain ⟨hst, -, -⟩ := finish_load_error _ _ _ _ _ _ _ _ _ _ _ h
        rw [hst]
        exact ⟨rfl, rfl⟩

/-- `List.isPrefixOf` on character lists is the existence of a suffix. -/
theorem isPrefixOfChars_iff (p : List Char) : ∀ s : List Char,
    p.isPrefixOf s = true ↔ ∃ t, s = p ++ t := by
  induction p with
  | nil => intro s; simp [List.isPrefixOf]
  | cons c p ih =>
    intro s
    cases s with
    | nil => simp [List.isPrefixOf]
    | cons d s =>
      simp only [List.isPrefixOf, Bool.and_eq_true, beq_iff_eq, ih,
        List.cons_append, List.cons.injEq]
      constructor
      · rintro ⟨rfl, t, rfl⟩
        exact ⟨t, rfl, rfl⟩
      · rintro ⟨t, rfl, rfl⟩
        exact ⟨rfl, t, rfl⟩

/-- The eviction test succeeds exactly on the base path itself and on names
nested under it at a dot boundary. -/
theorem matchesBase_iff (base name : String) :
    matchesBase base name = true ↔
      name = base ∨ ∃ rest, name = base ++ "." ++ rest := by
  unfold matchesBase
  rw [Bool.or_eq_true, isPrefixOfChars_iff, beq_iff_eq]
  constructor
  · rintro (⟨t, ht⟩ | hd)
    · right
      refine ⟨⟨t⟩, String.ext ?_⟩
      rw [ht]
      simp [String.data_append]
    · left
      exact String.ext hd
  · rintro (rfl | ⟨r, rfl⟩)
    · right; rfl
    · left
      exact ⟨r.data, by rw [String.data_append]⟩

/-- If the import tail reports `ok (v, g)`, then `g` is the count it was
handed. -/
theorem finish_load_ok_fst (env : Env M A) (st1 : AppReloader A)
    (sys1 : List String) (tr1 : List Event) (mp an amn : String)
    (v : A) (g : Nat)
    (h : (finish_load env st1 sys1 tr1 mp an amn).1 = .ok (v, g)) :
    g = st1.reload_count := by
  unfold finish_load at h
  split at h
  · simp at h
  · split at h
    · simp at h
    · split at h
      · simp only [Except.ok.injEq, Prod.mk.injEq] at h
        exact h.2.symm
      · simp at h

/-- Any single `load_app` call invokes the resolver at most once. -/
theorem load_app_resolve_count (env : Env M A) (st : AppReloader A)
    (sys : List String) (t : String) (r : Bool) :
    ((AppReloader.load_app env st sys t r).2.2.2.filter Event.isResolve).length
      ≤ 1 := by
  by_cases hfast : r = false ∧ st.app_instance.isSome ∧
      st.app_module_name = some t
  · rw [AppReloader.load_app, dif_pos hfast]
    simp
  · by_cases hc : containsChar t ':' = true
    · rw [load_app_slow_eq env st sys t r hfast hc]
      by_cases hb : r = true ∨ st.app_instance.isSome
      · rw [if_pos hb, (finish_load_frame _ _ _ _ _ _ _).2.2]
        simp [Event.isResolve]
      · rw [if_neg hb, (finish_load_frame _ _ _ _ _ _ _).2.2]
        simp [Event.isResolve]
    · rw [load_app_parse_error env st sys t r hfast
        (by revert hc; cases containsChar t ':' <;> simp)]
      simp

/-- A successful non-forced call from an empty cache invokes the resolver
exactly once. -/
theorem load_app_fresh_resolve (env : Env M A) (st : AppReloader A)
    (sys : List String) (t : String) (v : A) (g : Nat) (st1 : AppReloader A)
    (sys1 : List String) (tr1 : List Event)
    (hnone : st.app_instance = none)
    (h : AppReloader.load_app env st sys t false = (.ok (v, g), st1, sys1, tr1)) :
    (tr1.filter Event.isResolve).length = 1 := by
  have hfast : ¬(false = false ∧ st.app_instance.isSome ∧
      st.app_module_name = some t) := by
    simp [hnone]
  by_cases hc : containsChar t ':' = true
  · rw [load_app_slow_eq env st sys t false hfast hc,
      if_neg (by simp [hnone])] at h
    have htr := (finish_load_frame env st sys ([] : List Event)
      (split_first t ':').1 (split_first t ':').2 t).2.2
    rw [h] at htr
    simp only [List.nil_append] at htr
    rw [htr]
    simp [Event.isResolve]
  · rw [load_app_parse_error env st sys t false hfast
      (by revert hc; cases containsChar t ':' <;> simp)] at h
    simp at h

/-- `splitAtFirst` splits at the first occurrence of the separator: on
`l ++ sep :: rest` with `sep` not occurring in `l`, it yields `(l, rest)`. -/
theorem splitAtFirst_spec (sep : Char) (rest : List Char) :
    ∀ l : List Char, sep ∉ l →
      splitAtFirst sep (l ++ sep :: rest) = some (l, rest) := by
  intro l
  induction l with
  | nil => intro _; simp [splitAtFirst]
  | cons c cs ih =>
    intro hmem
    have hc : ¬(c = sep) := fun hx => hmem (hx ▸ List.mem_cons_self c cs)
    rw [List.cons_append, splitAtFirst, if_neg hc,
      ih (fun hx => hmem (List.mem_cons_of_mem c hx))]

/-- `split_first` realises Python's split-at-the-first-separator: a string
of the shape `before ++ sep ++ rest` with separator-free `before` is sent
to exactly `(before, rest)` — also when `before` or `rest` is empty. -/
theorem split_first_spec (sep : Char) (l rest : List Char) (hl : sep ∉ l) :
    split_first ⟨l ++ sep :: rest⟩ sep = (⟨l⟩, ⟨rest⟩) := by
  unfold split_first
  rw [show (⟨l ++ sep :: rest⟩ : String).data = l ++ sep :: rest from rfl,
    splitAtFirst_spec sep rest l hl]

/-- Any string of the shape `before ++ sep ++ rest` contains the
separator, so it passes the parse check. -/
theorem containsChar_of_sep (sep : Char) (l rest : List Char) :
    containsChar ⟨l ++ sep :: rest⟩ sep = true := by
  unfold containsChar
  simp

/-- The import tail never raises `ValueError`: its failures are exactly
the import, attribute and type errors. -/
theorem finish_load_no_value_error (env : Env M A) (st1 : AppReloader A)
    (sys1 : List String) (tr1 : List Event) (mp an amn : String)
    (s : String) :
    (finish_load env st1 sys1 tr1 mp an amn).1 ≠ .error (.valueError s) := by
  unfold finish_load
  split
  · simp
  · split
    · simp
    · split
      · simp
      · simp

/-! ## The claims -/

/-- C6: in every coordinator state, `clear()` empties the cached handle and
cached target (so a following `get_app` returns `none`), leaves the reload
count unchanged, and is idempotent. -/
theorem claim_C6_clear_contract (st : AppReloader A) :
    st.clear.get_app = none ∧
    st.clear.app_instance = none ∧
    st.clear.app_module_name = none ∧
    st.clear.reload_count = st.reload_count ∧
    st.clear.clear = st.clear := by
  simp [AppReloader.clear, AppReloader.get_app]

/-- C4: after a successful non-forced `load_app` of target `t`, a second
non-forced call for `t` returns the identical handle and identical
generation, is side-effect-free (state, module table unchanged, empty
trace), and the resolver is invoked at most once over the two calls —
exactly once when the first call started with an empty cache. -/
theorem claim_C4_cache_hit (env : Env M A) (st : AppReloader A)
    (sys : List String) (t : String) (v : A) (g : Nat) (st1 : AppReloader A)
    (sys1 : List String) (tr1 : List Event)
    (h : AppReloader.load_app env st sys t false = (.ok (v, g), st1, sys1, tr1)) :
    AppReloader.load_app env st1 sys1 t false = (.ok (v, g), st1, sys1, []) ∧
    (tr1.filter Event.isResolve).length ≤ 1 ∧
    (st.app_instance = none → (tr1.filter Event.isResolve).length = 1) := by
  obtain ⟨h1, h2, h3⟩ := load_app_ok env st sys t false v g st1 sys1 tr1 h
  refine ⟨?_, ?_,
    fun hnone => load_app_fresh_resolve env st sys t v g st1 sys1 tr1 hnone h⟩
  · rw [load_app_fast env st1 sys1 t v h1 h2, h3]
  · have hcount := load_app_resolve_count env st sys t false
    rw [h] at hcount
    exact hcount

/-- Witness for C4 at a concrete input: first load of `"pkg.app:service"`
succeeds under `envA`, and the second call returns the same handle `42` at
generation `0` with an empty trace. -/
theorem claim_C4_cache_hit_witness :
    AppReloader.load_app envA (AppReloader.init Nat) ["pkg.app"]
        "pkg.app:service" false
      = (.ok (42, 0), ⟨some 42, some "pkg.app:service", 0⟩, ["pkg.app"],
         [.resolve "pkg.app"]) ∧
    (AppReloader.load_app envA ⟨some 42, some "pkg.app:service", 0⟩ ["pkg.app"]
        "pkg.app:service" false
      = (.ok (42, 0), ⟨some 42, some "pkg.app:service", 0⟩, ["pkg.app"], []) ∧
     (([Event.resolve "pkg.app"] : List Event).filter Event.isResolve).length ≤ 1 ∧
     ((AppReloader.init Nat).app_instance = none →
       (([Event.resolve "pkg.app"] : List Event).filter Event.isResolve).length = 1)) :=
  ⟨by decide,
   claim_C4_cache_hit envA (AppReloader.init Nat) ["pkg.app"] "pkg.app:service"
     42 0 ⟨some 42, some "pkg.app:service", 0⟩ ["pkg.app"]
     [.resolve "pkg.app"] (by decide)⟩

/-- C5: after a successful non-forced load of `t1`, a non-forced call for a
different well-formed target `t2` takes the reload path: the generation
increments by one and the resolver is invoked for `t2`'s module path. -/
theorem claim_C5_target_switch_reloads (env : Env M A) (st : AppReloader A)
    (sys : List String) (t1 t2 : String) (v : A) (g : Nat) (st1 : AppReloader A)
    (sys1 : List String) (tr1 : List Event)
    (h : AppReloader.load_app env st sys t1 false = (.ok (v, g), st1, sys1, tr1))
    (hne : t1 ≠ t2) (hc : containsChar t2 ':' = true) :
    (AppReloader.load_app env st1 sys1 t2 false).2.1.reload_count = g + 1 ∧
    Event.resolve (split_first t2 ':').1
      ∈ (AppReloader.load_app env st1 sys1 t2 false).2.2.2 := by
  obtain ⟨h1, h2, h3⟩ := load_app_ok env st sys t1 false v g st1 sys1 tr1 h
  have hfast : ¬(false = false ∧ st1.app_instance.isSome ∧
      st1.app_module_name = some t2) := by
    rintro ⟨-, -, hx⟩
    rw [h2] at hx
    exact hne (Option.some.inj hx)
  have hb : false = true ∨ st1.app_instance.isSome = true := Or.inr (by simp [h1])
  rw [load_app_slow_eq env st1 sys1 t2 false hfast hc, if_pos hb]
  constructor
  · rw [(finish_load_frame _ _ _ _ _ _ _).1]
    simp [h3]
  · rw [(finish_load_frame _ _ _ _ _ _ _).2.2]
    simp

/-- Witness for C5 at a concrete input: after loading `"pkg.app:service"`,
requesting `"a:b:c"` without forcing increments the count and resolves
module `"a"`. -/
theorem claim_C5_target_switch_reloads_witness :
    (AppReloader.load_app envA (AppReloader.init Nat) [] "pkg.app:service" false
       = (.ok (42, 0), ⟨some 42, some "pkg.app:service", 0⟩, [],
          [.resolve "pkg.app"]) ∧
     "pkg.app:service" ≠ "a:b:c" ∧ containsChar "a:b:c" ':' = true) ∧
    ((AppReloader.load_app envA ⟨some 42, some "pkg.app:service", 0⟩ []
        "a:b:c" false).2.1.reload_count = 0 + 1 ∧
     Event.resolve (split_first "a:b:c" ':').1
       ∈ (AppReloader.load_app envA ⟨some 42, some "pkg.app:service", 0⟩ []
           "a:b:c" false).2.2.2) :=
  ⟨⟨by decide, by decide, by decide⟩,
   claim_C5_target_switch_reloads envA (AppReloader.init Nat) []
     "pkg.app:service" "a:b:c" 42 0 ⟨some 42, some "pkg.app:service", 0⟩ []
     [.resolve "pkg.app"] (by decide) (by decide) (by decide)⟩

/-- C8: from a freshly constructed reloader and target `"pkg.app:service"`,
the first call imports module `"pkg.app"`, reads its attribute `"service"`
(the handle `42` of `envA`), caches it, and returns generation `0`; a
subsequent forced reload returns generation `1` and invokes the resolver
again for `"pkg.app"`. -/
theorem claim_C8_pkg_app_scenario :
    AppReloader.load_app envA (AppReloader.init Nat) ["pkg.app", "other"]
        "pkg.app:service" false
      = (.ok (42, 0), ⟨some 42, some "pkg.app:service", 0⟩, ["pkg.app", "other"],
         [.resolve "pkg.app"]) ∧
    envA.getattr "pkg.app" "service" = some 42 ∧
    (AppReloader.load_app envA ⟨some 42, some "pkg.app:service", 0⟩
        ["pkg.app", "other"] "pkg.app:service" true).1 = .ok (42, 1) ∧
    Event.resolve "pkg.app" ∈
      (AppReloader.load_app envA ⟨some 42, some "pkg.app:service", 0⟩
        ["pkg.app", "other"] "pkg.app:service" true).2.2.2 := by
  refine ⟨by decide, by decide, by decide, by decide⟩

/-- C7: on the reload path, the module-table invalidation removes exactly
the imported names that pass the eviction test, and that test holds for a
name iff it equals the target's top-level namespace segment or is nested
under it at a dot boundary; in particular `"pkgfoo"` is never evicted when
invalidating `"pkg"`. -/
theorem claim_C7_eviction_rule (env : Env M A) (st : AppReloader A)
    (sys : List String) (t : String) (r : Bool)
    (hfast : ¬(r = false ∧ st.app_instance.isSome ∧
      st.app_module_name = some t))
    (hc : containsChar t ':' = true)
    (hb : r = true ∨ st.app_instance.isSome) :
    (AppReloader.load_app env st sys t r).2.2.1
      = sys.filter (fun name =>
          !(matchesBase (basePathOf (split_first t ':').1) name)) ∧
    (∀ name, name ∈ sys →
      (name ∉ (AppReloader.load_app env st sys t r).2.2.1 ↔
        (name = basePathOf (split_first t ':').1 ∨
         ∃ rest, name = basePathOf (split_first t ':').1 ++ "." ++ rest))) ∧
    matchesBase "pkg" "pkgfoo" = false := by
  have hsys : (AppReloader.load_app env st sys t r).2.2.1
      = sys.filter (fun name =>
          !(matchesBase (basePathOf (split_first t ':').1) name)) := by
    rw [load_app_slow_eq env st sys t r hfast hc, if_pos hb]
    exact (finish_load_frame _ _ _ _ _ _ _).2.1
  refine ⟨hsys, fun name hmem => ?_, by decide⟩
  rw [hsys, ← matchesBase_iff]
  simp [List.mem_filter, hmem]

/-- Witness for C7 at a concrete input: reloading `"pkg.app:service"` over
the module table `["pkg", "pkg.app", "pkgfoo", "other"]` evicts `"pkg"` and
`"pkg.app"` and keeps `"pkgfoo"` and `"other"`. -/
theorem claim_C7_eviction_rule_witness :
    (¬((true : Bool) = false ∧
        (⟨some 42, some "pkg.app:service", 0⟩ :
          AppReloader Nat).app_instance.isSome ∧
        (⟨some 42, some "pkg.app:service", 0⟩ :
          AppReloader Nat).app_module_name = some "pkg.app:service") ∧
     containsChar "pkg.app:service" ':' = true ∧
     ((true : Bool) = true ∨
       (⟨some 42, some "pkg.app:service", 0⟩ :
         AppReloader Nat).app_instance.isSome)) ∧
    ((AppReloader.load_app envA (⟨some 42, some "pkg.app:service", 0⟩ :
          AppReloader Nat)
        ["pkg", "pkg.app", "pkgfoo", "other"] "pkg.app:service" true).2.2.1
      = ["pkg", "pkg.app", "pkgfoo", "other"].filter (fun name =>
          !(matchesBase (basePathOf (split_first "pkg.app:service" ':').1) name)) ∧
     (∀ name, name ∈ ["pkg", "pkg.app", "pkgfoo", "other"] →
       (name ∉ (AppReloader.load_app envA (⟨some 42, some "pkg.app:service", 0⟩ :
             AppReloader Nat)
           ["pkg", "pkg.app", "pkgfoo", "other"] "pkg.app:service" true).2.2.1 ↔
         (name = basePathOf (split_first "pkg.app:service" ':').1 ∨
          ∃ rest, name = basePathOf (split_first "pkg.app:service" ':').1
            ++ "." ++ rest))) ∧
     matchesBase "pkg" "pkgfoo" = false) :=
  ⟨⟨by decide, by decide, by decide⟩,
   claim_C7_eviction_rule envA ⟨some 42, some "pkg.app:service", 0⟩
     ["pkg", "pkg.app", "pkgfoo", "other"] "pkg.app:service" true
     (by decide) (by decide) (by decide)⟩

/-- C10: after `clear()` on a reloader that held a loaded handle, the next
non-forced call with a well-formed target performs a fresh resolution and
nothing else — the trace is the single resolver invocation (no sweep, no
invalidation), the module table is untouched, the count does not move, and
a successful result carries the same generation that `get_reload_count`
returned before the `clear()`. -/
theorem claim_C10_clear_then_load (env : Env M A) (st : AppReloader A)
    (sys : List String) (t : String)
    (hv : st.app_instance.isSome) (hc : containsChar t ':' = true) :
    (AppReloader.load_app env st.clear sys t false).2.2.2
      = [Event.resolve (split_first t ':').1] ∧
    (AppReloader.load_app env st.clear sys t false).2.1.reload_count
      = st.get_reload_count ∧
    (AppReloader.load_app env st.clear sys t false).2.2.1 = sys ∧
    (∀ v g, (AppReloader.load_app env st.clear sys t false).1 = .ok (v, g) →
      g = st.get_reload_count) := by
  have hnone : st.clear.app_instance = none := rfl
  have hfast : ¬(false = false ∧ st.clear.app_instance.isSome ∧
      st.clear.app_module_name = some t) := by
    simp [hnone]
  rw [load_app_slow_eq env st.clear sys t false hfast hc,
    if_neg (by simp [hnone])]
  refine ⟨?_, ?_, (finish_load_frame _ _ _ _ _ _ _).2.1,
    fun v g hok => finish_load_ok_fst env st.clear sys []
      (split_first t ':').1 (split_first t ':').2 t v g hok⟩
  · rw [(finish_load_frame _ _ _ _ _ _ _).2.2]
    rfl
  · exact (finish_load_frame _ _ _ _ _ _ _).1

/-- Witness for C10 at a concrete input: clearing a reloader that held
handle `42` at count `3` and then loading `"pkg.app:service"` resolves
afresh without sweep or invalidation and keeps count `3`. -/
theorem claim_C10_clear_then_load_witness :
    ((⟨some 42, some "pkg.app:service", 3⟩ :
        AppReloader Nat).app_instance.isSome ∧
     containsChar "pkg.app:service" ':' = true) ∧
    ((AppReloader.load_app envA (⟨some 42, some "pkg.app:service", 3⟩ :
          AppReloader Nat).clear ["x"] "pkg.app:service" false).2.2.2
       = [Event.resolve (split_first "pkg.app:service" ':').1] ∧
     (AppReloader.load_app envA (⟨some 42, some "pkg.app:service", 3⟩ :
          AppReloader Nat).clear ["x"] "pkg.app:service" false).2.1.reload_count
       = (⟨some 42, some "pkg.app:service", 3⟩ :
           AppReloader Nat).get_reload_count ∧
     (AppReloader.load_app envA (⟨some 42, some "pkg.app:service", 3⟩ :
          AppReloader Nat).clear ["x"] "pkg.app:service" false).2.2.1 = ["x"] ∧
     (∀ v g, (AppReloader.load_app envA (⟨some 42, some "pkg.app:service", 3⟩ :
           AppReloader Nat).clear ["x"] "pkg.app:service" false).1 = .ok (v, g) →
       g = (⟨some 42, some "pkg.app:service", 3⟩ :
             AppReloader Nat).get_reload_count)) :=
  ⟨⟨by decide, by decide⟩,
   claim_C10_clear_then_load envA ⟨some 42, some "pkg.app:service", 3⟩ ["x"]
     "pkg.app:service" (by decide) (by decide)⟩

/-- C1 counterexample: a failed reload does not leave the cache empty. With
handle `7` cached for `"pkg.app:service"` and a resolver whose import
raises, the forced reload raises `ImportError`, yet `get_app` afterwards
still returns `7` — not `none` — and the next non-forced call for the same
target returns the stale `7` from the cache with an empty trace, i.e.
without attempting any fresh resolution. -/
theorem claim_C1_counterexample :
    (AppReloader.load_app envFail ⟨some 7, some "pkg.app:service", 1⟩
        ["pkg.app"] "pkg.app:service" true).1
      = .error (.importError "pkg.app") ∧
    (AppReloader.load_app envFail ⟨some 7, some "pkg.app:service", 1⟩
        ["pkg.app"] "pkg.app:service" true).2.1.get_app = some 7 ∧
    (AppReloader.load_app envFail ⟨some 7, some "pkg.app:service", 1⟩
        ["pkg.app"] "pkg.app:service" true).2.1.get_app ≠ none ∧
    AppReloader.load_app envFail ⟨some 7, some "pkg.app:service", 2⟩ []
        "pkg.app:service" false
      = (.ok (7, 2), ⟨some 7, some "pkg.app:service", 2⟩, [], []) := by
  refine ⟨by decide, by decide, by decide, by decide⟩

/-- C1 amended: when the reload path fails under a cached handle, the
previous handle and target are retained: `get_app` afterwards returns the
old handle (not `none`), and a subsequent non-forced call for the same
target returns that stale handle from the cache — with empty trace, hence
no fresh resolution — under any resolver whatsoever. -/
theorem claim_C1_stale_handle_retained (env env2 : Env M A)
    (st : AppReloader A) (sys : List String) (t : String) (v : A)
    (e : LoadError) (st1 : AppReloader A) (sys1 : List String)
    (tr1 : List Event)
    (hv : st.app_instance = some v) (ht : st.app_module_name = some t)
    (h : AppReloader.load_app env st sys t true = (.error e, st1, sys1, tr1)) :
    st1.get_app = some v ∧ st1.app_module_name = some t ∧
    AppReloader.load_app env2 st1 sys1 t false
      = (.ok (v, st1.reload_count), st1, sys1, []) := by
  obtain ⟨h1, h2⟩ := load_app_error env st sys t true e st1 sys1 tr1 h
  exact ⟨by rw [AppReloader.get_app, h1, hv], by rw [h2, ht],
    load_app_fast env2 st1 sys1 t v (by rw [h1, hv]) (by rw [h2, ht])⟩

/-- Witness for the amended C1 at a concrete input: the failed forced
reload of `"pkg.app:service"` under `envFail` keeps handle `7` cached, and
the follow-up call under `envA` serves it from the cache. -/
theorem claim_C1_stale_handle_retained_witness :
    ((⟨some 7, some "pkg.app:service", 1⟩ :
        AppReloader Nat).app_instance = some 7 ∧
     (⟨some 7, some "pkg.app:service", 1⟩ :
        AppReloader Nat).app_module_name = some "pkg.app:service" ∧
     AppReloader.load_app envFail ⟨some 7, some "pkg.app:service", 1⟩
         ["pkg.app"] "pkg.app:service" true
       = (.error (.importError "pkg.app"), ⟨some 7, some "pkg.app:service", 2⟩,
          [], [.sweep, .invalidate "pkg", .resolve "pkg.app"])) ∧
    ((⟨some 7, some "pkg.app:service", 2⟩ :
        AppReloader Nat).get_app = some 7 ∧
     (⟨some 7, some "pkg.app:service", 2⟩ :
        AppReloader Nat).app_module_name = some "pkg.app:service" ∧
     AppReloader.load_app envA ⟨some 7, some "pkg.app:service", 2⟩ []
         "pkg.app:service" false
       = (.ok (7, (⟨some 7, some "pkg.app:service", 2⟩ :
            AppReloader Nat).reload_count),
          ⟨some 7, some "pkg.app:service", 2⟩, [], [])) :=
  ⟨⟨by decide, by decide, by decide⟩,
   claim_C1_stale_handle_retained envFail envA
     ⟨some 7, some "pkg.app:service", 1⟩ ["pkg.app"] "pkg.app:service" 7
     (.importError "pkg.app") ⟨some 7, some "pkg.app:service", 2⟩ []
     [.sweep, .invalidate "pkg", .resolve "pkg.app"]
     (by decide) (by decide) (by decide)⟩

/-- C2 counterexample: targets with two or more separators or with empty
segments are not rejected as malformed. The two-separator `"a:b:c"` splits
at the first separator (module `"a"`, attribute `"b:c"`) and, under a
resolver whose module `"a"` carries an attribute literally named `"b:c"`,
succeeds outright; the empty-module target `":service"` and the
empty-attribute target `"pkg.app:"` pass the parse check too, failing only
later with an import error and an attribute error respectively — never
with `ValueError`. -/
theorem claim_C2_counterexample :
    split_first "a:b:c" ':' = ("a", "b:c") ∧
    AppReloader.load_app envB (AppReloader.init Nat) [] "a:b:c" false
      = (.ok (5, 0), ⟨some 5, some "a:b:c", 0⟩, [], [.resolve "a"]) ∧
    split_first ":service" ':' = ("", "service") ∧
    (AppReloader.load_app envFail (AppReloader.init Nat) [] ":service" false).1
      = .error (.importError "") ∧
    split_first "pkg.app:" ':' = ("pkg.app", "") ∧
    (AppReloader.load_app envA (AppReloader.init Nat) [] "pkg.app:" false).1
      = .error (.attributeError "pkg.app" "") := by
  refine ⟨by decide, by decide, by decide, by decide, by decide, by decide⟩

/-- C2 amended: only a target with zero separators is rejected by the
parse check: off the fast path it raises `ValueError` carrying the
offending string and leaves everything unchanged — same state (hence same
`get_app` and `get_reload_count`), same module table, empty trace. Every
target containing a separator — two or more separators, empty module
segment, empty attribute segment included — passes the check: no
`ValueError` is ever raised and the call proceeds to resolution of the
part before the first separator; and the parse sends every string of the
shape `before ++ ":" ++ rest` with separator-free `before` to exactly
`(before, rest)`. -/
theorem claim_C2_malformed_rule (env : Env M A) (st : AppReloader A)
    (sys : List String) (t : String) (r : Bool)
    (hfast : ¬(r = false ∧ st.app_instance.isSome ∧
      st.app_module_name = some t)) :
    (containsChar t ':' = false →
      AppReloader.load_app env st sys t r
        = (.error (.valueError t), st, sys, []) ∧
      (AppReloader.load_app env st sys t r).2.1.get_app = st.get_app ∧
      (AppReloader.load_app env st sys t r).2.1.get_reload_count
        = st.get_reload_count) ∧
    (containsChar t ':' = true →
      (∀ s, (AppReloader.load_app env st sys t r).1
        ≠ .error (.valueError s)) ∧
      Event.resolve (split_first t ':').1
        ∈ (AppReloader.load_app env st sys t r).2.2.2) ∧
    (∀ l rest : List Char, ':' ∉ l →
      containsChar ⟨l ++ ':' :: rest⟩ ':' = true ∧
      split_first ⟨l ++ ':' :: rest⟩ ':' = (⟨l⟩, ⟨rest⟩)) := by
  refine ⟨fun hc => ?_, fun hc => ?_,
    fun l rest hl => ⟨containsChar_of_sep ':' l rest,
      split_first_spec ':' l rest hl⟩⟩
  · have he := load_app_parse_error env st sys t r hfast hc
    exact ⟨he, by rw [he], by rw [he]⟩
  · rw [load_app_slow_eq env st sys t r hfast hc]
    by_cases hb : r = true ∨ st.app_instance.isSome
    · rw [if_pos hb]
      exact ⟨fun s => finish_load_no_value_error _ _ _ _ _ _ _ s,
        by rw [(finish_load_frame _ _ _ _ _ _ _).2.2]; simp⟩
    · rw [if_neg hb]
      exact ⟨fun s => finish_load_no_value_error _ _ _ _ _ _ _ s,
        by rw [(finish_load_frame _ _ _ _ _ _ _).2.2]; simp⟩

/-- Witness for the amended C2 at a concrete input: the empty-module
target `":service"` on a fresh reloader — the hypothesis holds and the
conclusion covers its parse acceptance and resolution. -/
theorem claim_C2_malformed_rule_witness :
    (¬((false : Bool) = false ∧
        (AppReloader.init Nat).app_instance.isSome ∧
        (AppReloader.init Nat).app_module_name = some ":service")) ∧
    ((containsChar ":service" ':' = false →
       AppReloader.load_app envFail (AppReloader.init Nat) [] ":service" false
         = (.error (.valueError ":service"), AppReloader.init Nat, [], []) ∧
       (AppReloader.load_app envFail (AppReloader.init Nat) [] ":service"
          false).2.1.get_app = (AppReloader.init Nat).get_app ∧
       (AppReloader.load_app envFail (AppReloader.init Nat) [] ":service"
          false).2.1.get_reload_count
         = (AppReloader.init Nat).get_reload_count) ∧
     (containsChar ":service" ':' = true →
       (∀ s, (AppReloader.load_app envFail (AppReloader.init Nat) []
          ":service" false).1 ≠ .error (.valueError s)) ∧
       Event.resolve (split_first ":service" ':').1
         ∈ (AppReloader.load_app envFail (AppReloader.init Nat) []
             ":service" false).2.2.2) ∧
     (∀ l rest : List Char, ':' ∉ l →
       containsChar ⟨l ++ ':' :: rest⟩ ':' = true ∧
       split_first ⟨l ++ ':' :: rest⟩ ':' = (⟨l⟩, ⟨rest⟩))) :=
  ⟨by decide,
   claim_C2_malformed_rule envFail (AppReloader.init Nat) [] ":service" false
     (by decide)⟩

/-- C3 counterexample: a reload attempt that fails before completing does
change the counter. With handle `7` cached for `"a:b"` at count `0` and a
resolver whose import raises, the forced reload raises `ImportError`, yet
the count afterwards is `1`, not `0`. -/
theorem claim_C3_counterexample :
    (AppReloader.load_app envFail ⟨some 7, some "a:b", 0⟩ ["a"] "a:b" true).1
      = .error (.importError "a") ∧
    (AppReloader.load_app envFail ⟨some 7, some "a:b", 0⟩ ["a"]
        "a:b" true).2.1.reload_count = 1 := by
  refine ⟨by decide, by decide⟩

/-- C3 amended: the counter starts at 0, never decreases, is untouched by
`clear`, and moves by exactly 1 on precisely the calls that reach the
reload block — those off the fast path whose target parses and that are
forced or hold a cached instance — whether or not the reload then
completes; a failing resolution still leaves it incremented, and an
unforced fresh load from an empty cache completes without incrementing. -/
theorem claim_C3_generation_rule (env : Env M A) (st : AppReloader A)
    (sys : List String) (t : String) (r : Bool) :
    (AppReloader.init A).reload_count = 0 ∧
    st.clear.reload_count = st.reload_count ∧
    st.reload_count ≤ (AppReloader.load_app env st sys t r).2.1.reload_count ∧
    (AppReloader.load_app env st sys t r).2.1.reload_count
      = st.reload_count +
        (if (¬(r = false ∧ st.app_instance.isSome ∧
              st.app_module_name = some t))
            ∧ containsChar t ':' = true ∧ (r = true ∨ st.app_instance.isSome)
         then 1 else 0) := by
  have hchar : (AppReloader.load_app env st sys t r).2.1.reload_count
      = st.reload_count +
        (if (¬(r = false ∧ st.app_instance.isSome ∧
              st.app_module_name = some t))
            ∧ containsChar t ':' = true ∧ (r = true ∨ st.app_instance.isSome)
         then 1 else 0) := by
    by_cases hfast : r = false ∧ st.app_instance.isSome ∧
        st.app_module_name = some t
    · rw [AppReloader.load_app, dif_pos hfast,
        if_neg (fun hx => hx.1 hfast)]
      rfl
    · by_cases hc : containsChar t ':' = true
      · rw [load_app_slow_eq env st sys t r hfast hc]
        by_cases hb : r = true ∨ st.app_instance.isSome
        · rw [if_pos hb, (finish_load_frame _ _ _ _ _ _ _).1,
            if_pos ⟨hfast, hc, hb⟩]
        · rw [if_neg hb, (finish_load_frame _ _ _ _ _ _ _).1,
            if_neg (fun hx => hb hx.2.2)]
          rfl
      · rw [load_app_parse_error env st sys t r hfast
          (by revert hc; cases containsChar t ':' <;> simp),
          if_neg (fun hx => hc hx.2.1)]
        rfl
  refine ⟨rfl, rfl, ?_, hchar⟩
  rw [hchar]
  exact Nat.le_add_right _ _

/-- C9 counterexample: the sweep is not conditioned on a previous handle. A
forced reload from a freshly constructed reloader (cache empty) still
emits the sweep event. -/
theorem claim_C9_counterexample :
    (AppReloader.init Nat).app_instance = none ∧
    (AppReloader.load_app envA (AppReloader.init Nat) []
        "pkg.app:service" true).2.2.2
      = [.sweep, .invalidate "pkg", .resolve "pkg.app"] ∧
    Event.sweep ∈ (AppReloader.load_app envA (AppReloader.init Nat) []
        "pkg.app:service" true).2.2.2 := by
  refine ⟨by decide, by decide, by decide⟩

/-- C9 amended: off the fast path with a well-formed target, the registry
sweep runs iff the call is forced or a previous handle is cached — a forced
reload sweeps even from an empty cache — and whenever it runs it precedes
the namespace invalidation, which precedes the resolution. -/
theorem claim_C9_sweep_rule (env : Env M A) (st : AppReloader A)
    (sys : List String) (t : String) (r : Bool)
    (hfast : ¬(r = false ∧ st.app_instance.isSome ∧
      st.app_module_name = some t))
    (hc : containsChar t ':' = true) :
    ((AppReloader.load_app env st sys t r).2.2.2
      = if r = true ∨ st.app_instance.isSome then
          [Event.sweep, Event.invalidate (basePathOf (split_first t ':').1),
           Event.resolve (split_first t ':').1]
        else [Event.resolve (split_first t ':').1]) ∧
    (Event.sweep ∈ (AppReloader.load_app env st sys t r).2.2.2 ↔
      (r = true ∨ st.app_instance.isSome = true)) := by
  rw [load_app_slow_eq env st sys t r hfast hc]
  by_cases hb : r = true ∨ st.app_instance.isSome
  · rw [if_pos hb, if_pos hb, (finish_load_frame _ _ _ _ _ _ _).2.2]
    exact ⟨rfl, by simp [hb]⟩
  · rw [if_neg hb, if_neg hb, (finish_load_frame _ _ _ _ _ _ _).2.2]
    refine ⟨rfl, ?_⟩
    simp only [List.nil_append, List.mem_singleton]
    constructor
    · intro hx
      exact absurd hx (by simp)
    · intro hx
      exact absurd hx hb

/-- Witness for the amended C9 at a concrete input: a forced reload of
`"pkg.app:service"` from a fresh reloader sweeps, then invalidates `"pkg"`,
then resolves `"pkg.app"`. -/
theorem claim_C9_sweep_rule_witness :
    (¬((true : Bool) = false ∧ (AppReloader.init Nat).app_instance.isSome ∧
        (AppReloader.init Nat).app_module_name = some "pkg.app:service") ∧
     containsChar "pkg.app:service" ':' = true) ∧
    (((AppReloader.load_app envA (AppReloader.init Nat) []
         "pkg.app:service" true).2.2.2
       = if (true : Bool) = true ∨ (AppReloader.init Nat).app_instance.isSome then
           [Event.sweep,
            Event.invalidate (basePathOf (split_first "pkg.app:service" ':').1),
            Event.resolve (split_first "pkg.app:service" ':').1]
         else [Event.resolve (split_first "pkg.app:service" ':').1]) ∧
     (Event.sweep ∈ (AppReloader.load_app envA (AppReloader.init Nat) []
         "pkg.app:service" true).2.2.2 ↔
       ((true : Bool) = true ∨ (AppReloader.init Nat).app_instance.isSome = true))) :=
  ⟨⟨by decide, by decide⟩,
   claim_C9_sweep_rule envA (AppReloader.init Nat) [] "pkg.app:service" true
     (by decide) (by decide)⟩

end Apx
